import Mathlib

/-
  Verification of the supervised external-process execution engine of
  `shuiyin_ffmpeg.py` (function `add_watermark_to_video`, the batch driver
  `process_videos_in_folder`, and the `__main__` entry).

  The embedding models one iteration of the supervision loop (lines 111-147)
  as a step over an externally supplied `Tick` (the wall-clock time sampled at
  the top of the iteration, whether `process.poll()` reported an exit code,
  and the line read from the stderr stream in that iteration).  The retry
  loop (lines 51-208) is modelled as a recursion over a list of per-attempt
  environments, instrumented to record the attempt results, the backoff
  waits performed, and the existence of the output file at each attempt
  boundary.
-/

namespace ShuiyinFfmpeg

/-- One iteration of the monitoring loop: the time sampled at line 112, the
result of `process.poll()` (line 117; `some rc` once the process has exited
with code `rc`), and the text read from the stderr stream in this iteration
(lines 120-129; the empty string when `select` timed out or `readline`
returned nothing). -/
structure Tick where
  time : Nat
  exited : Option Int
  output : String
  deriving DecidableEq, Repr

/-- The loop state of lines 105-108: `current_frame`, `last_progress_time`
and `last_frame`. -/
structure MonState where
  currentFrame : Int
  lastProgressTime : Nat
  lastFrame : Int
  deriving DecidableEq, Repr

/-- How the monitoring loop of one attempt ends: normal exit of the process
with code 0 (line 155), `TimeoutError` at line 114, the stall `TimeoutError`
at line 135, or the non-zero-exit `Exception` at line 152. -/
inductive AttemptEnd
  | success
  | timeoutErr
  | stallErr
  | processExitErr (code : Int)
  deriving DecidableEq, Repr

/-- Whether `pat` is a prefix of `cs`. -/
def matchFront : List Char → List Char → Bool
  | [], _ => true
  | _ :: _, [] => false
  | p :: ps, c :: cs => (p == c) && matchFront ps cs

/-- Fuel-driven worker for `pySplit`; with fuel above the length of the text
the fuel never runs out. -/
def pySplitAux (pat : List Char) : Nat → List Char → List Char → List (List Char)
  | 0, cs, acc => [acc.reverse ++ cs]
  | _ + 1, [], acc => [acc.reverse]
  | fuel + 1, c :: cs, acc =>
      if matchFront pat (c :: cs) then
        acc.reverse :: pySplitAux pat fuel (List.drop pat.length (c :: cs)) []
      else
        pySplitAux pat fuel cs (c :: acc)

/-- Python `text.split(pat)` for a non-empty separator: cut at every
non-overlapping occurrence, left to right. -/
def pySplit (pat cs : List Char) : List (List Char) :=
  pySplitAux pat (cs.length + 1) cs []

/-- Python `text.strip()`: drop whitespace from both ends. -/
def pyStrip (cs : List Char) : List Char :=
  ((cs.dropWhile Char.isWhitespace).reverse.dropWhile Char.isWhitespace).reverse

/-- Decimal value of a digit string. -/
def digitsToNat (cs : List Char) : Nat :=
  cs.foldl (fun a c => 10 * a + (c.toNat - 48)) 0

/-- Python `int(text)`: optional surrounding whitespace, an optional sign,
then at least one digit; anything else raises `ValueError`, modelled as
`none`. -/
def pyInt (cs0 : List Char) : Option Int :=
  let cs := pyStrip cs0
  match cs with
  | '-' :: rest =>
      if rest.isEmpty || !rest.all Char.isDigit then none
      else some (-(digitsToNat rest : Int))
  | '+' :: rest =>
      if rest.isEmpty || !rest.all Char.isDigit then none
      else some ((digitsToNat rest : Int))
  | _ =>
      if cs.isEmpty || !cs.all Char.isDigit then none
      else some ((digitsToNat cs : Int))

/-- Line 140: `'frame=' in output`. -/
def containsFrame (out : String) : Bool :=
  2 ≤ (pySplit "frame=".data out.data).length

/-- Line 142: `int(output.split('frame=')[1].split('fps=')[0].strip())`,
returning `none` where Python raises `ValueError`. -/
def parseFrame (out : String) : Option Int :=
  pyInt (pyStrip (((pySplit "fps=".data
    ((pySplit "frame=".data out.data).getD 1 []))).headD []))

/-- Line 74: `int(result.stdout.strip())` applied to what the ffprobe query
printed. -/
def parseMeta (out : String) : Option Int :=
  pyInt (pyStrip out.data)

/-- Lines 139-147: process the text read in this iteration.  On a parsed
`frame=` value, `current_frame` is assigned (line 142) and then
`last_progress_time` is updated (line 145) — unless the percentage
computation at line 143 raises `ZeroDivisionError` (total of 0), in which
case the `except: continue` fires after `current_frame` was already
assigned but before `last_progress_time` was updated.  Unparsable text is
ignored by that same `except: continue`. -/
def applyOutput (total : Int) (now : Nat) (s : MonState) (out : String) : MonState :=
  if out.isEmpty then s
  else if containsFrame out then
    match parseFrame out with
    | some n =>
        if total = 0 then { s with currentFrame := n }
        else { s with currentFrame := n, lastProgressTime := now }
    | none => s
  else s

/-- One iteration of the `while True` loop (lines 111-147), in source order:
hard-timeout check (113), liveness check / break (117), stall check
(131-137, evaluated on the time sampled at the top of the iteration, with
the one-shot `last_frame` resynchronisation when the frame count did move),
then processing of the text that was read (139-147). -/
def monitorStep (startTime timeout : Nat) (total : Int) (s : MonState) (tk : Tick) :
    MonState ⊕ AttemptEnd :=
  if tk.time - startTime > timeout then .inr .timeoutErr
  else
    match tk.exited with
    | some rc => .inr (if rc = 0 then .success else .processExitErr rc)
    | none =>
        if tk.time - s.lastProgressTime > 30 then
          if s.currentFrame = s.lastFrame then .inr .stallErr
          else
            .inl (applyOutput total tk.time
              { s with lastFrame := s.currentFrame, lastProgressTime := tk.time } tk.output)
        else .inl (applyOutput total tk.time s tk.output)

/-- Run the monitoring loop over a list of iterations.  `.inl s` means the
supplied iterations ran out while the loop was still going (a model
artifact: the real loop only ends by break or raise). -/
def runMonitor (startTime timeout : Nat) (total : Int) :
    MonState → List Tick → MonState ⊕ AttemptEnd
  | s, [] => .inl s
  | s, tk :: tks =>
      match monitorStep startTime timeout total s tk with
      | .inl s2 => runMonitor startTime timeout total s2 tks
      | .inr r => .inr r

/-- Lines 105-108: `current_frame = 0`, `last_progress_time = start_time`,
`last_frame = 0`. -/
def initMonState (startTime : Nat) : MonState :=
  { currentFrame := 0, lastProgressTime := startTime, lastFrame := 0 }

/-- The reason one attempt failed (the exception caught at line 157):
`TimeoutExpired` of the 30s ffprobe query (line 73), `ValueError` of
`int(...)` at line 74, the hard `TimeoutError` (114), the stall
`TimeoutError` (135), or the non-zero-exit `Exception` (152). -/
inductive FailReason
  | metaTimeout
  | metaNonNumeric
  | hardTimeout
  | stalled
  | processExit (code : Int)
  deriving DecidableEq, Repr

/-- The outcome of one attempt. -/
inductive AttemptResult
  | success
  | failure (r : FailReason)
  deriving DecidableEq, Repr

/-- The environment of one attempt: what the ffprobe metadata query wrote to
stdout (`none` when it exceeded its 30s timeout), the iterations observed by
the monitoring loop, and whether the launched tool left a file at the output
path when the attempt did not succeed. -/
structure AttemptEnv where
  metaStdout : Option String
  ticks : List Tick
  leavesOutput : Bool

/-- Lines 63-155: one attempt.  The ffprobe query result is converted with
`int(result.stdout.strip())` (line 74) — a timeout or a non-numeric string
raises and the attempt fails before the tool is ever launched.  Otherwise
the tool runs under the monitoring loop (start time normalised to 0).
`none` means the supplied iteration list ran out (model artifact). -/
def runAttempt (timeout : Nat) (env : AttemptEnv) : Option AttemptResult :=
  match env.metaStdout with
  | none => some (.failure .metaTimeout)
  | some out =>
      match parseMeta out with
      | none => some (.failure .metaNonNumeric)
      | some total =>
          match runMonitor 0 timeout total (initMonState 0) env.ticks with
          | .inl _ => none
          | .inr .success => some .success
          | .inr .timeoutErr => some (.failure .hardTimeout)
          | .inr .stallErr => some (.failure .stalled)
          | .inr (.processExitErr c) => some (.failure (.processExit c))

/-- `os.remove(output_video_path)` on a filesystem reduced to the existence
of the one output path: succeeds (file gone) when the file exists, raises
`FileNotFoundError` otherwise. -/
def os_remove (found : Bool) : Except Unit Bool :=
  if found then .ok false else .error ()

/-- Lines 193-196: `if os.path.exists(output_video_path): os.remove(...)` —
the deletion of a failed attempt's output, guarded by an existence check so
that the absence of the file is not an error. -/
def cleanup_failed_output (found : Bool) : Except Unit Bool :=
  if found then os_remove found else .ok found

/-- The fault model of the termination sequence (lines 162-190): whether the
graceful `os.killpg(..., SIGTERM)` raises, whether the `process.terminate()`
fallback of its inner `except` also raises, whether the process exits during
the 5s grace poll, whether `os.killpg(..., SIGKILL)` raises, and whether the
final `process.wait(timeout=1)` raises. -/
structure TermEnv where
  gracefulRaises : Bool
  fallbackRaises : Bool
  exitsWithinGrace : Bool
  killRaises : Bool
  waitRaises : Bool
  deriving DecidableEq, Repr

/-- What the termination sequence actually did: which of the four steps were
attempted, and whether control reached the output-file cleanup that follows
the sequence. -/
structure TermTrace where
  gracefulAttempted : Bool
  pollAttempted : Bool
  killAttempted : Bool
  reapAttempted : Bool
  cleanupReached : Bool
  deriving DecidableEq, Repr

/-- Lines 162-190: the termination sequence.  All four steps live inside one
`try` whose `except` (line 189) only logs; the graceful-signal step alone
has an inner `try/except` fallback to `process.terminate()` (lines 166-169).
An exception escaping a step therefore jumps to the outer handler, skipping
the remaining steps, but the cleanup that follows (line 192) is always
reached. -/
def terminate_process (env : TermEnv) : TermTrace :=
  if env.gracefulRaises && env.fallbackRaises then
    { gracefulAttempted := true, pollAttempted := false, killAttempted := false,
      reapAttempted := false, cleanupReached := true }
  else if env.exitsWithinGrace then
    { gracefulAttempted := true, pollAttempted := true, killAttempted := false,
      reapAttempted := true, cleanupReached := true }
  else if env.killRaises then
    { gracefulAttempted := true, pollAttempted := true, killAttempted := true,
      reapAttempted := false, cleanupReached := true }
  else
    { gracefulAttempted := true, pollAttempted := true, killAttempted := true,
      reapAttempted := true, cleanupReached := true }

/-- The terminal outcome of a call to `add_watermark_to_video`: a normal
return (line 155, or falling out of the loop), or the `Exception` raised at
line 208 with its message string. -/
inductive JobOutcome
  | success
  | failed (msg : String)
  deriving DecidableEq, Repr

/-- Line 208: the message of the exception raised once retries are
exhausted.  It mentions only `max_retries`; the reason of the last failed
attempt is not part of it. -/
def failMsg (maxRetries : Nat) : String :=
  "处理视频失败，已重试" ++ toString maxRetries ++ "次"

/-- An instrumented run of `add_watermark_to_video`: the terminal outcome,
the results of the attempts actually made, the `time.sleep` backoff waits
performed (line 202-204), the existence of the output file as each attempt
began, and its existence when the call returned or raised. -/
structure JobRun where
  outcome : JobOutcome
  attempts : List AttemptResult
  waits : List Nat
  fileAtAttemptStart : List Bool
  fileAtEnd : Bool
  deriving DecidableEq, Repr

/-- The retry loop of lines 51-208: `retry_count = 0; while retry_count <
max_retries:` — one attempt per environment; on failure `retry_count` is
incremented, the process is terminated, the output file cleaned up
(`cleanup_failed_output`), then either `time.sleep(5 * retry_count)` and a
new attempt, or the final raise (line 208).  A run whose metadata query
never parsed an integer never launched the tool, so the output file is
whatever it was before; otherwise the file after a failed run is whatever
the tool left (`leavesOutput`).  `none` is the model artifact of an
environment list too short to decide the loop. -/
def add_watermark_loop (timeout maxRetries : Nat) :
    List AttemptEnv → Nat → Bool → Option JobRun
  | [], retryCount, file =>
      if retryCount < maxRetries then none
      else some { outcome := .success, attempts := [], waits := [],
                  fileAtAttemptStart := [], fileAtEnd := file }
  | env :: rest, retryCount, file =>
      if retryCount < maxRetries then
        match runAttempt timeout env with
        | none => none
        | some .success =>
            some { outcome := .success, attempts := [.success], waits := [],
                   fileAtAttemptStart := [file], fileAtEnd := true }
        | some (.failure r) =>
            let ranTool := (env.metaStdout.bind parseMeta).isSome
            let fileRun := if ranTool then env.leavesOutput else file
            let fileAfter :=
              match cleanup_failed_output fileRun with
              | .ok b => b
              | .error _ => fileRun
            if retryCount + 1 < maxRetries then
              match add_watermark_loop timeout maxRetries rest (retryCount + 1) fileAfter with
              | none => none
              | some jr =>
                  some { outcome := jr.outcome,
                         attempts := .failure r :: jr.attempts,
                         waits := 5 * (retryCount + 1) :: jr.waits,
                         fileAtAttemptStart := file :: jr.fileAtAttemptStart,
                         fileAtEnd := jr.fileAtEnd }
            else
              some { outcome := .failed (failMsg maxRetries),
                     attempts := [.failure r], waits := [],
                     fileAtAttemptStart := [file], fileAtEnd := fileAfter }
      else
        some { outcome := .success, attempts := [], waits := [],
               fileAtAttemptStart := [], fileAtEnd := file }

/-- Lines 47-208: `add_watermark_to_video(input, output, text, max_retries,
timeout)`, abstracted over the per-attempt environments and the initial
existence of the output file. -/
def add_watermark_to_video (timeout maxRetries : Nat) (envs : List AttemptEnv)
    (file : Bool) : Option JobRun :=
  add_watermark_loop timeout maxRetries envs 0 file

/-- Line 219: the recognized video extensions. -/
def video_extensions : List String := [".mp4", ".avi", ".mov", ".mkv"]

/-- Whether `tail` is a suffix of `cs`. -/
def endsWithChars (tail cs : List Char) : Bool :=
  matchFront tail.reverse cs.reverse

/-- Python `text.lower()` over ASCII names. -/
def pyLower (cs : List Char) : List Char :=
  cs.map Char.toLower

/-- Line 224: `filename.lower().endswith(video_extensions)`. -/
def isVideoFilename (name : String) : Bool :=
  video_extensions.any (fun ext => endsWithChars ext.data (pyLower name.data))

/-- Lines 210-260: `process_videos_in_folder` — one job per eligible file,
run with `max_retries=3, timeout=3600`; each future's exception is caught at
lines 257-260 and only printed, so every job's result is collected and none
propagates. -/
def process_videos_in_folder (files : List String)
    (envOf : String → List AttemptEnv) (fs : String → Bool) :
    List (String × Option JobRun) :=
  (files.filter isVideoFilename).map
    (fun f => (f, add_watermark_to_video 3600 3 (envOf f) (fs f)))

/-- Lines 272-285: the `__main__` block.  `exit(1)` when ffmpeg is missing;
otherwise `process_videos_in_folder` runs, its per-job failures are only
printed (lines 257-260), and the interpreter exits normally with status 0.
The first component is the process exit status, the second the per-job
results that were collected. -/
def main_run (ffmpegInstalled : Bool) (files : List String)
    (envOf : String → List AttemptEnv) (fs : String → Bool) :
    Nat × List (String × Option JobRun) :=
  if ffmpegInstalled then (0, process_videos_in_folder files envOf fs)
  else (1, [])

/-- A run of quiet monitor iterations: `k` iterations at times `t0+1, …,
t0+k` (the 1-second `select` slices of line 122) in which the process is
alive and nothing is read from its stream. -/
def silentTicks : Nat → Nat → List Tick
  | _, 0 => []
  | t0, k + 1 =>
      { time := t0 + 1, exited := none, output := "" } :: silentTicks (t0 + 1) k

/-- A monitor iteration at time 1 whose read line reports frame 10. -/
def advanceTick : Tick :=
  { time := 1, exited := none, output := "frame=10 fps=1" }

/-- An attempt whose tool exits with status 1 at once, leaving a file at the
output path. -/
def envExit : AttemptEnv :=
  { metaStdout := some "100", ticks := [{ time := 1, exited := some 1, output := "" }],
    leavesOutput := true }

/-- An attempt whose tool stays alive but never emits a progress line. -/
def envStall : AttemptEnv :=
  { metaStdout := some "100", ticks := silentTicks 0 31, leavesOutput := false }

/-- An attempt whose metadata query prints a non-numeric string; the tool
would exit 0 immediately if it were launched. -/
def envMetaBad : AttemptEnv :=
  { metaStdout := some "abc", ticks := [{ time := 1, exited := some 0, output := "" }],
    leavesOutput := false }

/-- An attempt whose metadata query times out. -/
def envMetaMissing : AttemptEnv :=
  { metaStdout := none, ticks := [], leavesOutput := false }

/-- An attempt whose metadata query prints 100 and whose tool exits with
status 0 at once. -/
def envOk : AttemptEnv :=
  { metaStdout := some "100", ticks := [{ time := 1, exited := some 0, output := "" }],
    leavesOutput := false }

/-- A termination fault environment in which the graceful group signal and
its single-process fallback both raise while the process keeps running. -/
def termEnvBothRaise : TermEnv :=
  { gracefulRaises := true, fallbackRaises := true, exitsWithinGrace := false,
    killRaises := false, waitRaises := false }

/-- A termination fault environment in which the graceful group signal
raises but its fallback lands, and the final wait raises. -/
def termEnvFallbackLands : TermEnv :=
  { gracefulRaises := true, fallbackRaises := false, exitsWithinGrace := false,
    killRaises := false, waitRaises := true }

/-- The run of a job whose three attempts all end with exit status 1
(`[envExit, envExit, envExit]`). -/
def jrExit3 : JobRun :=
  { outcome := .failed (failMsg 3),
    attempts := [.failure (.processExit 1), .failure (.processExit 1),
                 .failure (.processExit 1)],
    waits := [5, 10],
    fileAtAttemptStart := [false, false, false],
    fileAtEnd := false }

/-- Text that does not parse as a `frame=` progress value leaves the loop
state unchanged. -/
theorem applyOutput_no_parse (total : Int) (now : Nat) (s : MonState) (out : String)
    (h : parseFrame out = none) : applyOutput total now s out = s := by
  unfold applyOutput
  split
  · rfl
  · split
    · rw [h]
    · rfl

/-- The empty read (a timed-out `select`) parses to nothing. -/
theorem parseFrame_empty : parseFrame "" = none := by decide

/-- A quiet iteration — process alive, nothing parseable read, neither the
hard timeout nor the stall window exceeded — leaves the loop state
unchanged. -/
theorem monitorStep_quiet (startTime timeout : Nat) (total : Int) (s : MonState)
    (tk : Tick) (hx : tk.exited = none) (hp : parseFrame tk.output = none)
    (ht : tk.time ≤ startTime + timeout) (hs : tk.time ≤ s.lastProgressTime + 30) :
    monitorStep startTime timeout total s tk = .inl s := by
  simp only [monitorStep, hx]
  split
  · omega
  · split
    · omega
    · rw [applyOutput_no_parse _ _ _ _ hp]

/-- An iteration past the stall window with the frame counter equal to the
recorded one raises the stall error. -/
theorem monitorStep_stallFire (startTime timeout : Nat) (total : Int) (s : MonState)
    (tk : Tick) (hx : tk.exited = none) (ht : tk.time ≤ startTime + timeout)
    (hgt : s.lastProgressTime + 30 < tk.time) (heq : s.currentFrame = s.lastFrame) :
    monitorStep startTime timeout total s tk = .inr .stallErr := by
  simp only [monitorStep, hx]
  rw [if_neg (by omega : ¬ tk.time - startTime > timeout)]
  rw [if_pos (by omega : tk.time - s.lastProgressTime > 30)]
  rw [if_pos heq]

/-- An iteration past the stall window with a frame counter that did move
resynchronises `last_frame` and `last_progress_time` instead of raising. -/
theorem monitorStep_stallReset (startTime timeout : Nat) (total : Int) (s : MonState)
    (tk : Tick) (hx : tk.exited = none) (hp : parseFrame tk.output = none)
    (ht : tk.time ≤ startTime + timeout) (hgt : s.lastProgressTime + 30 < tk.time)
    (hne : s.currentFrame ≠ s.lastFrame) :
    monitorStep startTime timeout total s tk =
      .inl { currentFrame := s.currentFrame, lastProgressTime := tk.time,
             lastFrame := s.currentFrame } := by
  simp only [monitorStep, hx]
  rw [if_neg (by omega : ¬ tk.time - startTime > timeout)]
  rw [if_pos (by omega : tk.time - s.lastProgressTime > 30)]
  rw [if_neg hne]
  rw [applyOutput_no_parse _ _ _ _ hp]

/-- Running the monitor over a concatenation runs the second part from the
state the first part ends in. -/
theorem runMonitor_append (startTime timeout : Nat) (total : Int) :
    ∀ (l1 l2 : List Tick) (s : MonState),
    runMonitor startTime timeout total s (l1 ++ l2) =
      match runMonitor startTime timeout total s l1 with
      | .inl s2 => runMonitor startTime timeout total s2 l2
      | .inr r => .inr r := by
  intro l1
  induction l1 with
  | nil => intro l2 s; rfl
  | cons tk tks ih =>
      intro l2 s
      simp only [List.cons_append, runMonitor]
      cases monitorStep startTime timeout total s tk with
      | inl s2 => exact ih l2 s2
      | inr r => rfl

/-- Every element of `silentTicks t0 k` is a quiet iteration with a time in
`(t0, t0 + k]`. -/
theorem silentTicks_mem : ∀ (k t0 : Nat) (tk : Tick), tk ∈ silentTicks t0 k →
    tk.exited = none ∧ tk.output = "" ∧ t0 < tk.time ∧ tk.time ≤ t0 + k := by
  intro k
  induction k with
  | zero => intro t0 tk h; cases h
  | succ n ih =>
      intro t0 tk h
      simp only [silentTicks] at h
      rcases List.mem_cons.mp h with rfl | hmem
      · exact ⟨rfl, rfl, by show t0 < t0 + 1; omega, by show t0 + 1 ≤ t0 + (n + 1); omega⟩
      · rcases ih (t0 + 1) tk hmem with ⟨h1, h2, h3, h4⟩
        exact ⟨h1, h2, by omega, by omega⟩

/-- Splitting a run of quiet iterations. -/
theorem silentTicks_add : ∀ (a b t0 : Nat),
    silentTicks t0 (a + b) = silentTicks t0 a ++ silentTicks (t0 + a) b := by
  intro a
  induction a with
  | zero => intro b t0; simp [silentTicks]
  | succ n ih =>
      intro b t0
      have hab : n + 1 + b = (n + b) + 1 := by omega
      rw [hab]
      simp only [silentTicks, List.cons_append]
      rw [ih b (t0 + 1)]
      have hsh : t0 + 1 + n = t0 + (n + 1) := by omega
      rw [hsh]

/-- A run of quiet iterations that stays inside both the stall window of the
current state and the hard timeout leaves the state untouched. -/
theorem runMonitor_silent (startTime timeout : Nat) (total : Int) :
    ∀ (k t0 : Nat) (s : MonState), t0 + k ≤ s.lastProgressTime + 30 →
    t0 + k ≤ startTime + timeout →
    runMonitor startTime timeout total s (silentTicks t0 k) = .inl s := by
  intro k
  induction k with
  | zero => intro t0 s _ _; rfl
  | succ n ih =>
      intro t0 s h30 ht
      have hstep := monitorStep_quiet startTime timeout total s
        { time := t0 + 1, exited := none, output := "" } rfl parseFrame_empty
        (by show t0 + 1 ≤ startTime + timeout; omega)
        (by show t0 + 1 ≤ s.lastProgressTime + 30; omega)
      simp only [silentTicks, runMonitor, hstep]
      exact ih (t0 + 1) s (by omega) (by omega)

/-- If the process stays alive, nothing parseable is ever read, the hard
timeout is never exceeded, and the frame counter already equals the
recorded one, then any iteration past the stall window of the current state
ends the run with the stall error. -/
theorem runMonitor_noProgress (startTime timeout : Nat) (total : Int) :
    ∀ (ticks : List Tick) (s : MonState), s.currentFrame = s.lastFrame →
    (∀ tk ∈ ticks, tk.exited = none ∧ parseFrame tk.output = none ∧
      tk.time ≤ startTime + timeout) →
    (∃ tk ∈ ticks, s.lastProgressTime + 30 < tk.time) →
    runMonitor startTime timeout total s ticks = .inr .stallErr := by
  intro ticks
  induction ticks with
  | nil =>
      intro s _ _ hex
      rcases hex with ⟨tk, htk, _⟩
      cases htk
  | cons tk tks ih =>
      intro s hfr hall hex
      rcases hall tk (List.mem_cons_self tk tks) with ⟨hx, hp, ht⟩
      by_cases hlt : s.lastProgressTime + 30 < tk.time
      · have hstep := monitorStep_stallFire startTime timeout total s tk hx ht hlt hfr
        simp only [runMonitor, hstep]
      · have hstep := monitorStep_quiet startTime timeout total s tk hx hp ht (by omega)
        simp only [runMonitor, hstep]
        apply ih s hfr (fun t h => hall t (List.mem_cons_of_mem _ h))
        rcases hex with ⟨t, htmem, htgt⟩
        rcases List.mem_cons.mp htmem with rfl | hmem
        · omega
        · exact ⟨t, hmem, htgt⟩

/-- The guarded deletion always succeeds and always leaves no file, whether
or not a file was present. -/
theorem cleanup_ok (found : Bool) : cleanup_failed_output found = .ok false := by
  cases found <;> rfl

/-- Structural facts about any run of the retry loop: every backoff wait is
`5 * retry_count`; a failed outcome carries exactly the generic line-208
message and ends with no file at the output path; if no file was there at
the start then no attempt ever begins with one; and independently of the
initial state, every attempt after the first begins with no file at the
output path. -/
theorem loop_spec (timeout maxRetries : Nat) :
    ∀ (envs : List AttemptEnv) (rc : Nat) (file : Bool) (jr : JobRun),
    add_watermark_loop timeout maxRetries envs rc file = some jr →
    (∀ k w, jr.waits[k]? = some w → w = 5 * (rc + k + 1)) ∧
    (∀ msg, jr.outcome = .failed msg → msg = failMsg maxRetries ∧ jr.fileAtEnd = false) ∧
    (file = false → ∀ b ∈ jr.fileAtAttemptStart, b = false) ∧
    (∀ b ∈ jr.fileAtAttemptStart.drop 1, b = false) := by
  intro envs
  induction envs with
  | nil =>
      intro rc file jr h
      simp only [add_watermark_loop] at h
      split at h
      · cases h
      · injection h with h
        subst h
        refine ⟨by simp, by simp, by simp, by simp⟩
  | cons env rest ih =>
      intro rc file jr h
      simp only [add_watermark_loop] at h
      split at h
      · split at h
        · cases h
        · injection h with h
          subst h
          refine ⟨by simp, by simp, ?_, by simp⟩
          intro hf b hb
          simp only [List.mem_singleton] at hb
          subst hb
          exact hf
        · simp only [cleanup_ok] at h
          split at h
          · split at h
            · cases h
            · rename_i jr2 heq2
              injection h with h
              subst h
              rcases ih (rc + 1) false jr2 heq2 with ⟨hw, hm, hstart, _⟩
              refine ⟨?_, ?_, ?_, ?_⟩
              · intro k w hkw
                cases k with
                | zero =>
                    simp only [List.getElem?_cons_zero, Option.some.injEq] at hkw
                    omega
                | succ k2 =>
                    simp only [List.getElem?_cons_succ] at hkw
                    have := hw k2 w hkw
                    omega
              · intro msg hmsg
                exact hm msg hmsg
              · intro hf b hb
                simp only [List.mem_cons] at hb
                rcases hb with rfl | hb
                · exact hf
                · exact hstart rfl b hb
              · intro b hb
                simp only [List.drop_one, List.tail_cons] at hb
                exact hstart rfl b hb
          · injection h with h
            subst h
            refine ⟨by simp, ?_, ?_, by simp⟩
            · intro msg hmsg
              simp only [JobOutcome.failed.injEq] at hmsg
              exact ⟨hmsg.symm, rfl⟩
            · intro hf b hb
              simp only [List.mem_singleton] at hb
              subst hb
              exact hf
      · injection h with h
        subst h
        refine ⟨by simp, by simp, by simp, by simp⟩

/-- When every supplied attempt environment decides its attempt and there
are at least as many environments as permitted attempts, the retry loop
terminates with a result. -/
theorem loop_total (timeout maxRetries : Nat) :
    ∀ (envs : List AttemptEnv) (rc : Nat) (file : Bool),
    (∀ env ∈ envs, runAttempt timeout env ≠ none) →
    maxRetries - rc ≤ envs.length →
    ∃ jr, add_watermark_loop timeout maxRetries envs rc file = some jr := by
  intro envs
  induction envs with
  | nil =>
      intro rc file _ hlen
      simp only [List.length_nil, Nat.le_zero] at hlen
      simp only [add_watermark_loop]
      rw [if_neg (by omega)]
      exact ⟨_, rfl⟩
  | cons env rest ih =>
      intro rc file hdec hlen
      by_cases hrc : rc < maxRetries
      · simp only [add_watermark_loop]
        rw [if_pos hrc]
        split
        · rename_i heq
          exact absurd heq (hdec env (List.mem_cons_self env rest))
        · exact ⟨_, rfl⟩
        · simp only [cleanup_ok]
          split
          · obtain ⟨jr2, hjr2⟩ := ih (rc + 1) false
              (fun e he => hdec e (List.mem_cons_of_mem _ he))
              (by simp only [List.length_cons] at hlen; omega)
            rw [hjr2]
            exact ⟨_, rfl⟩
          · exact ⟨_, rfl⟩
      · simp only [add_watermark_loop]
        rw [if_neg hrc]
        exact ⟨_, rfl⟩

/-- When every supplied attempt fails and enough environments are supplied,
the retry loop consumes exactly its remaining budget of attempts and ends
`Failed` with the generic message. -/
theorem loop_allFail (timeout maxRetries : Nat) :
    ∀ (envs : List AttemptEnv) (rc : Nat) (file : Bool),
    rc < maxRetries → maxRetries - rc ≤ envs.length →
    (∀ env ∈ envs, ∃ r, runAttempt timeout env = some (.failure r)) →
    ∃ jr, add_watermark_loop timeout maxRetries envs rc file = some jr ∧
      jr.outcome = .failed (failMsg maxRetries) ∧
      jr.attempts.length = maxRetries - rc := by
  intro envs
  induction envs with
  | nil =>
      intro rc file hrc hlen _
      simp only [List.length_nil, Nat.le_zero] at hlen
      omega
  | cons env rest ih =>
      intro rc file hrc hlen hfail
      obtain ⟨r, hA⟩ := hfail env (List.mem_cons_self env rest)
      simp only [add_watermark_loop]
      rw [if_pos hrc]
      split
      · rename_i heq
        rw [hA] at heq
        cases heq
      · rename_i heq
        rw [hA] at heq
        cases heq
      · rename_i r2 heq
        simp only [cleanup_ok]
        by_cases hrc2 : rc + 1 < maxRetries
        · rw [if_pos hrc2]
          obtain ⟨jr2, hjr2, ho, hl⟩ := ih (rc + 1) false hrc2
            (by simp only [List.length_cons] at hlen; omega)
            (fun e he => hfail e (List.mem_cons_of_mem _ he))
          rw [hjr2]
          refine ⟨_, rfl, ho, ?_⟩
          simp only [List.length_cons, hl]
          omega
        · rw [if_neg hrc2]
          refine ⟨_, rfl, rfl, ?_⟩
          simp only [List.length_cons, List.length_nil]
          omega

/-- Unfolding one monitor iteration. -/
theorem runMonitor_cons (startTime timeout : Nat) (total : Int) (s : MonState)
    (tk : Tick) (tks : List Tick) :
    runMonitor startTime timeout total s (tk :: tks) =
      match monitorStep startTime timeout total s tk with
      | .inl s2 => runMonitor startTime timeout total s2 tks
      | .inr r => .inr r := rfl

/-- The last iteration of a non-empty quiet run is a member of it. -/
theorem silentTicks_mem_last : ∀ (k t0 : Nat), 0 < k →
    ({ time := t0 + k, exited := none, output := "" } : Tick) ∈ silentTicks t0 k := by
  intro k
  induction k with
  | zero => intro t0 h; omega
  | succ n ih =>
      intro t0 _
      by_cases hn : 0 < n
      · simp only [silentTicks]
        refine List.mem_cons_of_mem _ ?_
        have harr : t0 + (n + 1) = t0 + 1 + n := by omega
        rw [harr]
        exact ih (t0 + 1) hn
      · have hn0 : n = 0 := by omega
        subst hn0
        simp only [silentTicks]
        exact List.mem_cons_self _ _

/-- Claim C1, counterexample.  The metadata query returning the non-numeric
string "abc" does not leave the attempt running with percentage reporting
disabled: `int(result.stdout.strip())` (line 74) raises, the attempt fails
with the metadata reason before the tool is launched — even though the very
same process behaviour (immediate exit 0) yields Success when the query
returns "100" — and a job whose queries always return "abc" ends Failed,
never reaching Success. -/
theorem C1_counterexample :
    runAttempt 3600 envMetaBad = some (.failure .metaNonNumeric) ∧
    runAttempt 3600 envOk = some .success ∧
    (add_watermark_to_video 3600 3 [envMetaBad, envMetaBad, envMetaBad] false).map
      JobRun.outcome = some (.failed (failMsg 3)) :=
  ⟨rfl, rfl, rfl⟩

/-- Claim C1, amended.  A metadata query that times out or returns a
non-numeric (or empty) string makes the current attempt fail — with
`metaTimeout` respectively `metaNonNumeric` as the recorded reason — before
the external tool is launched; the failure is counted like any other failed
attempt by the retry loop rather than being recovered silently. -/
theorem C1_metadata_failure_fails_attempt (timeout : Nat) (env : AttemptEnv) :
    (env.metaStdout = none → runAttempt timeout env = some (.failure .metaTimeout)) ∧
    (∀ out, env.metaStdout = some out → parseMeta out = none →
      runAttempt timeout env = some (.failure .metaNonNumeric)) := by
  constructor
  · intro h
    unfold runAttempt
    rw [h]
  · intro out h hni
    unfold runAttempt
    rw [h]
    simp only [hni]

/-- Claim C1, witness for the amended theorem at concrete inputs. -/
theorem C1_witness :
    runAttempt 3600 envMetaMissing = some (.failure .metaTimeout) ∧
    runAttempt 3600 envMetaBad = some (.failure .metaNonNumeric) :=
  ⟨(C1_metadata_failure_fails_attempt 3600 envMetaMissing).1 rfl,
   (C1_metadata_failure_fails_attempt 3600 envMetaBad).2 "abc" rfl rfl⟩

/-- Claim C2, counterexample.  In a run whose only progress advance is at
time 1 (frame 10 parsed, `last_progress_time := 1`), the attempt is still
running at time 35 — more than stall_window (30s) + poll interval (1s)
after the last advance — because the first stall check past the window
(time 32) merely resynchronises `last_frame`; the stall abort only comes at
time 63, a full second window later. -/
theorem C2_counterexample :
    runMonitor 0 3600 100 (initMonState 0) (advanceTick :: silentTicks 1 34) =
      .inl { currentFrame := 10, lastProgressTime := 32, lastFrame := 10 } ∧
    runMonitor 0 3600 100 (initMonState 0) (advanceTick :: silentTicks 1 62) =
      .inr .stallErr :=
  ⟨rfl, rfl⟩

/-- Claim C2, amended.  After the last progress advance at time `t0` (any
loop state whose `last_progress_time` is `t0`), if the process stays alive
and silent under 1-second polling, the attempt is aborted with the stall
error within twice the stall window plus two poll intervals — by time
`t0 + 62` — provided the hard timeout does not cut in first; in particular
well before a large hard timeout, though not within the single window plus
one poll that the claim states. -/
theorem C2_stall_abort_within_two_windows (startTime timeout : Nat) (total : Int)
    (t0 : Nat) (c l : Int) (hT : t0 + 62 ≤ startTime + timeout) :
    runMonitor startTime timeout total
      { currentFrame := c, lastProgressTime := t0, lastFrame := l }
      (silentTicks t0 62) = .inr .stallErr := by
  by_cases hcl : c = l
  · apply runMonitor_noProgress
    · exact hcl
    · intro tk htk
      rcases silentTicks_mem 62 t0 tk htk with ⟨hx, hout, _, hle⟩
      exact ⟨hx, by rw [hout]; exact parseFrame_empty, by omega⟩
    · exact ⟨_, silentTicks_mem_last 62 t0 (by omega),
        by show t0 + 30 < t0 + 62; omega⟩
  · have hsplit : silentTicks t0 62 = silentTicks t0 30 ++ silentTicks (t0 + 30) 32 := by
      have h62 : (62 : Nat) = 30 + 32 := rfl
      rw [h62, silentTicks_add]
    rw [hsplit, runMonitor_append]
    have hsil : runMonitor startTime timeout total
        { currentFrame := c, lastProgressTime := t0, lastFrame := l }
        (silentTicks t0 30) =
        .inl { currentFrame := c, lastProgressTime := t0, lastFrame := l } :=
      runMonitor_silent startTime timeout total 30 t0 _
        (by show t0 + 30 ≤ t0 + 30; omega) (by omega)
    rw [hsil]
    show runMonitor startTime timeout total
      { currentFrame := c, lastProgressTime := t0, lastFrame := l }
      (silentTicks (t0 + 30) 32) = .inr .stallErr
    have hsplit2 : silentTicks (t0 + 30) 32 =
        { time := t0 + 31, exited := none, output := "" } :: silentTicks (t0 + 31) 31 := by
      show silentTicks (t0 + 30) (31 + 1) = _
      simp only [silentTicks]
    rw [hsplit2, runMonitor_cons]
    have hreset := monitorStep_stallReset startTime timeout total
      { currentFrame := c, lastProgressTime := t0, lastFrame := l }
      { time := t0 + 31, exited := none, output := "" } rfl parseFrame_empty
      (by show t0 + 31 ≤ startTime + timeout; omega)
      (by show t0 + 30 < t0 + 31; omega) hcl
    rw [hreset]
    show runMonitor startTime timeout total
      { currentFrame := c, lastProgressTime := t0 + 31, lastFrame := c }
      (silentTicks (t0 + 31) 31) = .inr .stallErr
    apply runMonitor_noProgress
    · rfl
    · intro tk htk
      rcases silentTicks_mem 31 (t0 + 31) tk htk with ⟨hx, hout, _, hle⟩
      exact ⟨hx, by rw [hout]; exact parseFrame_empty, by omega⟩
    · exact ⟨_, silentTicks_mem_last 31 (t0 + 31) (by omega),
        by show t0 + 31 + 30 < t0 + 31 + 31; omega⟩

/-- Claim C2, witness for the amended theorem: continuing the counterexample
trace from the state reached after the advance at time 1, the stall abort
arrives by time 63. -/
theorem C2_witness :
    runMonitor 0 3600 100 { currentFrame := 10, lastProgressTime := 1, lastFrame := 0 }
      (silentTicks 1 62) = .inr .stallErr :=
  C2_stall_abort_within_two_windows 0 3600 100 1 10 0 (by omega)

/-- Claim C3, counterexample.  A batch over one eligible file whose job
fails all three attempts (the tool always exits 1) still finishes with
process exit status 0: the per-job exception is caught and printed at lines
257-260 and `__main__` falls through normally. -/
theorem C3_counterexample :
    (main_run true ["a.mp4"] (fun _ => [envExit, envExit, envExit])
      (fun _ => false)).1 = 0 ∧
    ((main_run true ["a.mp4"] (fun _ => [envExit, envExit, envExit])
      (fun _ => false)).2.map (fun p => p.2.map JobRun.outcome)) =
      [some (.failed (failMsg 3))] :=
  ⟨rfl, rfl⟩

/-- Claim C3, amended.  The batch process exit status is independent of the
jobs' outcomes: it is 0 whenever ffmpeg is installed — succeeding and
failing jobs alike, their failures only printed — and 1 exactly when ffmpeg
is missing. -/
theorem C3_exit_status (files : List String) (envOf : String → List AttemptEnv)
    (fs : String → Bool) :
    (main_run true files envOf fs).1 = 0 ∧ (main_run false files envOf fs).1 = 1 :=
  ⟨rfl, rfl⟩

/-- Claim C4.  An attempt never decides both Success and a failure; a
finished job carries exactly one of the two terminal outcomes, never both;
and with enough deciding attempt environments the retry loop always
produces a result — never neither. -/
theorem C4_exactly_one_outcome :
    (∀ (timeout : Nat) (env : AttemptEnv) (r : FailReason),
      ¬(runAttempt timeout env = some .success ∧
        runAttempt timeout env = some (.failure r))) ∧
    (∀ (timeout maxRetries : Nat) (envs : List AttemptEnv) (file : Bool) (jr : JobRun),
      add_watermark_to_video timeout maxRetries envs file = some jr →
      (jr.outcome = .success ∧ ∀ msg, jr.outcome ≠ .failed msg) ∨
      (∃ msg, jr.outcome = .failed msg ∧ jr.outcome ≠ .success)) ∧
    (∀ (timeout maxRetries : Nat) (envs : List AttemptEnv) (file : Bool),
      (∀ env ∈ envs, runAttempt timeout env ≠ none) → maxRetries ≤ envs.length →
      ∃ jr, add_watermark_to_video timeout maxRetries envs file = some jr) := by
  refine ⟨?_, ?_, ?_⟩
  · intro timeout env r h
    rcases h with ⟨h1, h2⟩
    rw [h1] at h2
    injection h2 with h2
    cases h2
  · intro timeout maxRetries envs file jr _
    cases ho : jr.outcome with
    | success =>
        refine Or.inl ⟨rfl, ?_⟩
        intro msg hmsg
        cases hmsg
    | failed msg =>
        refine Or.inr ⟨msg, rfl, ?_⟩
        intro hs
        cases hs
  · intro timeout maxRetries envs file hdec hlen
    exact loop_total timeout maxRetries envs 0 file hdec (by omega)

/-- Claim C4, witness at concrete inputs. -/
theorem C4_witness :
    ¬(runAttempt 3600 envOk = some .success ∧
      runAttempt 3600 envOk = some (.failure .stalled)) ∧
    ((jrExit3.outcome = .success ∧ ∀ msg, jrExit3.outcome ≠ .failed msg) ∨
      (∃ msg, jrExit3.outcome = .failed msg ∧ jrExit3.outcome ≠ .success)) ∧
    (∃ jr, add_watermark_to_video 3600 3 [envExit, envExit, envExit] false = some jr) :=
  ⟨C4_exactly_one_outcome.1 3600 envOk .stalled,
   C4_exactly_one_outcome.2.1 3600 3 [envExit, envExit, envExit] false jrExit3 rfl,
   C4_exactly_one_outcome.2.2 3600 3 [envExit, envExit, envExit] false
     (by decide) (by decide)⟩

/-- Claim C5, counterexample.  Two jobs that exhaust their retries with
different final-attempt reasons — last attempt fails with exit status 1 in
one, with a stall in the other — produce literally the same Failed result:
the exception of line 208 carries only the generic retried-out message, so
the terminal result does not carry the final attempt's failure reason. -/
theorem C5_counterexample :
    (add_watermark_to_video 3600 3 [envExit, envExit, envExit] false).map
      JobRun.outcome = some (.failed (failMsg 3)) ∧
    (add_watermark_to_video 3600 3 [envStall, envStall, envStall] false).map
      JobRun.outcome = some (.failed (failMsg 3)) ∧
    (add_watermark_to_video 3600 3 [envExit, envExit, envExit] false).map
      (fun jr => jr.attempts.getLast?) = some (some (.failure (.processExit 1))) ∧
    (add_watermark_to_video 3600 3 [envStall, envStall, envStall] false).map
      (fun jr => jr.attempts.getLast?) = some (some (.failure .stalled)) ∧
    FailReason.processExit 1 ≠ FailReason.stalled :=
  ⟨rfl, rfl, rfl, rfl, by decide⟩

/-- Claim C5, amended.  The terminal Failed result of a job that exhausted
its attempts carries only the generic message naming the retry bound
(line 208); the final attempt's reason is printed during the run but is not
part of the raised result. -/
theorem C5_failed_result_is_generic (timeout maxRetries : Nat)
    (envs : List AttemptEnv) (file : Bool) (jr : JobRun) (msg : String)
    (h : add_watermark_to_video timeout maxRetries envs file = some jr)
    (ho : jr.outcome = .failed msg) : msg = failMsg maxRetries :=
  ((loop_spec timeout maxRetries envs 0 file jr h).2.1 msg ho).1

/-- Claim C5, witness for the amended theorem. -/
theorem C5_witness : "处理视频失败，已重试3次" = failMsg 3 :=
  C5_failed_result_is_generic 3600 3 [envExit, envExit, envExit] false jrExit3
    "处理视频失败，已重试3次" rfl rfl

/-- Claim C6, counterexample.  When the graceful group signal raises and
the single-process fallback of its inner handler raises too, the outer
handler of line 189 catches the exception and the grace-window poll, the
forceful kill and the final reaping wait are all skipped — even though the
process is still running — refuting that every step is attempted regardless
of an earlier step's failure; output cleanup is still reached. -/
theorem C6_counterexample :
    terminate_process termEnvBothRaise =
      { gracefulAttempted := true, pollAttempted := false, killAttempted := false,
        reapAttempted := false, cleanupReached := true } :=
  rfl

/-- Claim C6, amended.  A failure in any termination step never prevents
reaching the output-file cleanup, and the graceful-signal step is always
attempted; but the four steps share a single exception handler, so the
later steps are attempted only while no exception escapes: the poll runs
exactly when the graceful signal or its fallback landed, and the reaping
wait is reached exactly when additionally the process exited in the grace
window or the forceful kill did not raise. -/
theorem C6_failures_never_prevent_cleanup (env : TermEnv) :
    (terminate_process env).cleanupReached = true ∧
    (terminate_process env).gracefulAttempted = true ∧
    ((env.gracefulRaises && env.fallbackRaises) = false →
      (terminate_process env).pollAttempted = true ∧
      (terminate_process env).reapAttempted =
        (env.exitsWithinGrace || !env.killRaises)) := by
  obtain ⟨g, fb, eg, k, w⟩ := env
  cases g <;> cases fb <;> cases eg <;> cases k <;> simp [terminate_process]

/-- Claim C6, witness for the amended theorem. -/
theorem C6_witness :
    (terminate_process termEnvFallbackLands).cleanupReached = true ∧
    (terminate_process termEnvFallbackLands).pollAttempted = true :=
  ⟨(C6_failures_never_prevent_cleanup termEnvFallbackLands).1,
   ((C6_failures_never_prevent_cleanup termEnvFallbackLands).2.2 rfl).1⟩

/-- Claim C7.  The guarded deletion of a failed attempt's output always
succeeds and leaves no file — in particular the absence of the file is not
an error — so in every finished job each attempt after the first begins
with no file at the output path, and a job that reports Failed does so with
no file left at the output path. -/
theorem C7_failed_attempt_cleanup (timeout maxRetries : Nat)
    (envs : List AttemptEnv) (file : Bool) (jr : JobRun)
    (h : add_watermark_to_video timeout maxRetries envs file = some jr) :
    (∀ found, cleanup_failed_output found = .ok false) ∧
    (∀ b ∈ jr.fileAtAttemptStart.drop 1, b = false) ∧
    (∀ msg, jr.outcome = .failed msg → jr.fileAtEnd = false) :=
  ⟨cleanup_ok,
   (loop_spec timeout maxRetries envs 0 file jr h).2.2.2,
   fun msg hm => ((loop_spec timeout maxRetries envs 0 file jr h).2.1 msg hm).2⟩

/-- Claim C7, witness at a concrete failing job. -/
theorem C7_witness :
    cleanup_failed_output false = Except.ok false ∧ jrExit3.fileAtEnd = false :=
  ⟨(C7_failed_attempt_cleanup 3600 3 [envExit, envExit, envExit] false jrExit3 rfl).1
     false,
   (C7_failed_attempt_cleanup 3600 3 [envExit, envExit, envExit] false jrExit3 rfl).2.2
     (failMsg 3) rfl⟩

/-- Claim C8.  In every finished job, the backoff waited before retry `k`
(counting from 1) is `5 * k` seconds — 5s after the first failed attempt,
10s after the second — hence the waits of one job are strictly
increasing. -/
theorem C8_backoff_linear_increasing (timeout maxRetries : Nat)
    (envs : List AttemptEnv) (file : Bool) (jr : JobRun)
    (h : add_watermark_to_video timeout maxRetries envs file = some jr) :
    (∀ k w, jr.waits[k]? = some w → w = 5 * (k + 1)) ∧
    (∀ k w w2, jr.waits[k]? = some w → jr.waits[k + 1]? = some w2 → w < w2) := by
  have hw := (loop_spec timeout maxRetries envs 0 file jr h).1
  constructor
  · intro k w hkw
    have := hw k w hkw
    omega
  · intro k w w2 h1 h2
    have e1 := hw k w h1
    have e2 := hw (k + 1) w2 h2
    omega

/-- Claim C8, witness: the failing three-attempt job waits 5s then 10s. -/
theorem C8_witness : (5 : Nat) = 5 * (0 + 1) ∧ (5 : Nat) < 10 :=
  ⟨(C8_backoff_linear_increasing 3600 3 [envExit, envExit, envExit] false jrExit3
      rfl).1 0 5 rfl,
   (C8_backoff_linear_increasing 3600 3 [envExit, envExit, envExit] false jrExit3
      rfl).2 0 5 10 rfl rfl⟩

/-- Claim C9.  A first attempt whose tool exits 0 ends the job Success
after exactly one attempt; and when every attempt fails, the job makes
exactly `maxRetries` attempts — no further attempt past the bound even when
more environments are available — and then reports Failed. -/
theorem C9_attempt_counts :
    (∀ (timeout maxRetries : Nat) (file : Bool) (env : AttemptEnv)
        (envs : List AttemptEnv), 0 < maxRetries →
      runAttempt timeout env = some .success →
      add_watermark_to_video timeout maxRetries (env :: envs) file =
        some { outcome := .success, attempts := [.success], waits := [],
               fileAtAttemptStart := [file], fileAtEnd := true }) ∧
    (∀ (timeout maxRetries : Nat) (file : Bool) (envs : List AttemptEnv),
      0 < maxRetries → maxRetries ≤ envs.length →
      (∀ env ∈ envs, ∃ r, runAttempt timeout env = some (.failure r)) →
      ∃ jr, add_watermark_to_video timeout maxRetries envs file = some jr ∧
        jr.outcome = .failed (failMsg maxRetries) ∧
        jr.attempts.length = maxRetries) := by
  constructor
  · intro timeout maxRetries file env envs hm hA
    show add_watermark_loop timeout maxRetries (env :: envs) 0 file = _
    simp only [add_watermark_loop]
    rw [if_pos hm, hA]
  · intro timeout maxRetries file envs hm hlen hfail
    obtain ⟨jr, hjr, ho, hl⟩ := loop_allFail timeout maxRetries envs 0 file hm
      (by omega) hfail
    exact ⟨jr, hjr, ho, by omega⟩

/-- Claim C9, witness: one immediately succeeding environment gives Success
in one attempt; four always-failing environments give Failed after exactly
three attempts. -/
theorem C9_witness :
    add_watermark_to_video 3600 3 [envOk] false =
      some { outcome := .success, attempts := [.success], waits := [],
             fileAtAttemptStart := [false], fileAtEnd := true } ∧
    (∃ jr, add_watermark_to_video 3600 3 [envExit, envExit, envExit, envExit] false =
        some jr ∧ jr.outcome = .failed (failMsg 3) ∧ jr.attempts.length = 3) :=
  ⟨C9_attempt_counts.1 3600 3 false envOk [] (by omega) rfl,
   C9_attempt_counts.2 3600 3 false [envExit, envExit, envExit, envExit] (by omega)
     (by decide)
     (by
       intro env henv
       simp only [List.mem_cons, List.not_mem_nil, or_false] at henv
       rcases henv with rfl | rfl | rfl | rfl <;> exact ⟨.processExit 1, rfl⟩)⟩

/-- Claim C10.  An attempt whose process stays alive but never emits a
parseable frame line is aborted as stalled at the first poll past 30
seconds from the attempt start — `last_progress_time` is initialised to the
start time and the initial count 0 equals the recorded `last_frame` — even
though the hard timeout has not elapsed. -/
theorem C10_no_progress_line_stalls (timeout : Nat) (total : Int) (mo : String)
    (ticks : List Tick) (lo : Bool) (hmeta : parseMeta mo = some total)
    (hticks : ∀ tk ∈ ticks, tk.exited = none ∧ parseFrame tk.output = none ∧
      tk.time ≤ timeout)
    (hlate : ∃ tk ∈ ticks, 30 < tk.time) :
    runAttempt timeout { metaStdout := some mo, ticks := ticks, leavesOutput := lo } =
      some (.failure .stalled) := by
  have hmon : runMonitor 0 timeout total (initMonState 0) ticks = .inr .stallErr := by
    apply runMonitor_noProgress
    · rfl
    · intro tk htk
      rcases hticks tk htk with ⟨a, b, c⟩
      exact ⟨a, b, by omega⟩
    · rcases hlate with ⟨tk, htk, hgt⟩
      refine ⟨tk, htk, ?_⟩
      show (0 : Nat) + 30 < tk.time
      omega
  unfold runAttempt
  simp only [hmeta, hmon]

/-- Claim C10, witness: with metadata 100 and 31 silent one-second polls,
the attempt fails as stalled. -/
theorem C10_witness :
    runAttempt 3600 envStall = some (.failure .stalled) :=
  C10_no_progress_line_stalls 3600 100 "100" (silentTicks 0 31) false rfl
    (by decide) (by decide)

end ShuiyinFfmpeg
